import Mathlib

/-!
Verification of the collex repository: a shallow embedding of the
`collex` package (`trace.go`, the Factory file) and of the demo adapter in
`clickhouse-demo/internal/examples.go`, together with a model of the span
translator that the spec describes (the translator itself is absent from
the source, present only as a stub and comments).

External Collector / SDK / zap types (loggers, tracer providers, exporter
configurations, consumers, contexts, errors) are opaque to collex, so they
are type parameters here; concrete instantiations at `Nat`/`String` are
used for witnesses and counterexamples.
-/

namespace Collex

/-- Mirrors `component.BuildInfo` (the three fields the source sets). -/
structure BuildInfo where
  command : String
  description : String
  version : String
deriving DecidableEq, Repr

/-- Mirrors `component.TelemetrySettings` (the fields the source sets):
a zap logger and an OpenTelemetry tracer provider, both opaque. -/
structure TelemetrySettings (Logger TracerProvider : Type) where
  logger : Logger
  tracerProvider : TracerProvider
deriving DecidableEq, Repr

/-- Mirrors `component.ExporterCreateSettings`. -/
structure ExporterCreateSettings (Logger TracerProvider : Type) where
  telemetrySettings : TelemetrySettings Logger TracerProvider
  buildInfo : BuildInfo
deriving DecidableEq, Repr

/-- Mirrors `component.ExporterFactory`: the two operations the source
calls, `CreateDefaultConfig` and `CreateTracesExporter(ctx, set, cfg)`.
`Consumer` stands for `component.TracesExporter`; `Err` for Go's `error`. -/
structure ExporterFactory (Logger TracerProvider Ctx Cfg Err Consumer : Type) where
  createDefaultConfig : Cfg
  createTracesExporter :
    Ctx → ExporterCreateSettings Logger TracerProvider → Cfg → Except Err Consumer

/-- Mirrors collex's `Factory` struct: the stored create settings
(`createCfg`, a value, copied at construction) and the wrapped collector
exporter factory (`collFactory`). -/
structure Factory (Logger TracerProvider Ctx Cfg Err Consumer : Type) where
  createCfg : ExporterCreateSettings Logger TracerProvider
  collFactory : ExporterFactory Logger TracerProvider Ctx Cfg Err Consumer

/-- Mirrors collex's unexported `spanExporter` struct (its constructor site
`&spanExporter{cexp: collExp}` is in the source): it wraps the created
collector exporter. -/
structure spanExporter (Consumer : Type) where
  cexp : Consumer

/-- The default `ExporterCreateSettings` built by `NewFactory` when `set`
is nil, given the logger produced by `zap.NewProduction` and the global
tracer provider from `otel.GetTracerProvider()`. -/
def defaultCreateSettings {Logger TracerProvider : Type}
    (logger : Logger) (tp : TracerProvider) :
    ExporterCreateSettings Logger TracerProvider :=
  { telemetrySettings := { logger := logger, tracerProvider := tp }
    buildInfo :=
      { command := "collex"
        description := "OpenTelemetry Collector to OpenTelemetry Go translator"
        version := "latest" } }

/-- Embedding of `NewFactory(f, set)`.  The two external effects it may
perform — `zap.NewProduction()` (fallible) and `otel.GetTracerProvider()`
— are passed in as `zapNewProduction` and `getTracerProvider`.  `set` is
the (possibly nil) settings pointer, already dereferenced to its pointee
value when non-nil (see `NewFactoryRef` for the explicit-heap version). -/
def NewFactory {Logger TracerProvider Ctx Cfg Err Consumer : Type}
    (zapNewProduction : Except Err Logger) (getTracerProvider : TracerProvider)
    (f : ExporterFactory Logger TracerProvider Ctx Cfg Err Consumer)
    (set : Option (ExporterCreateSettings Logger TracerProvider)) :
    Except Err (Factory Logger TracerProvider Ctx Cfg Err Consumer) :=
  match set with
  | none =>
    match zapNewProduction with
    | .error err => .error err
    | .ok logger =>
      .ok { createCfg := defaultCreateSettings logger getTracerProvider
            collFactory := f }
  | some s => .ok { createCfg := s, collFactory := f }

/-- A heap of settings structs: the caller's mutable `ExporterCreateSettings`
variables live at `Nat` addresses. -/
def Heap (Logger TracerProvider : Type) : Type :=
  Nat → ExporterCreateSettings Logger TracerProvider

/-- Writing through a pointer: mutate the settings struct at address `a`. -/
def Heap.write {Logger TracerProvider : Type} (h : Heap Logger TracerProvider)
    (a : Nat) (v : ExporterCreateSettings Logger TracerProvider) :
    Heap Logger TracerProvider :=
  fun n => if n = a then v else h n

/-- `NewFactory` as called with a settings *pointer*: `Factory{*set, f}`
dereferences the pointer, so the pointee is read from the heap once, at
construction time. -/
def NewFactoryRef {Logger TracerProvider Ctx Cfg Err Consumer : Type}
    (zapNewProduction : Except Err Logger) (getTracerProvider : TracerProvider)
    (f : ExporterFactory Logger TracerProvider Ctx Cfg Err Consumer)
    (h : Heap Logger TracerProvider) (set : Option Nat) :
    Except Err (Factory Logger TracerProvider Ctx Cfg Err Consumer) :=
  NewFactory zapNewProduction getTracerProvider f (set.map h)

/-- Embedding of `(*Factory).SpanExporter(ctx, cfg)`: `cfg` is a nilable
interface value, modelled as `Option Cfg`. -/
def Factory.SpanExporter {Logger TracerProvider Ctx Cfg Err Consumer : Type}
    (f : Factory Logger TracerProvider Ctx Cfg Err Consumer)
    (ctx : Ctx) (cfg : Option Cfg) : Except Err (spanExporter Consumer) :=
  let cfg := match cfg with
    | none => f.collFactory.createDefaultConfig
    | some c => c
  match f.collFactory.createTracesExporter ctx f.createCfg cfg with
  | .error err => .error err
  | .ok collExp => .ok { cexp := collExp }

/-- Embedding of `trace.go`'s package-level `TracesExporter`: the body is
`// TODO` followed by `return nil`, for every argument.  `SpanExp` stands
for the `trace.SpanExporter` interface type; the nil interface value is
`none`. -/
def TracesExporter {Consumer SpanExp : Type} (e : Consumer) : Option SpanExp :=
  none

end Collex

namespace Demo

/-!
Embedding of `clickhouse-demo/internal/examples.go`: the
`spanExporterAdapter` (wrapping a `consumer.Traces`) and the
`simulatedExporter` (wrapping a ClickHouse config).  Method calls are
embedded as pure functions returning a `CallEffect`: what the call
printed, how many times it invoked each operation of the wrapped
consumer, and the `error` return value (`none` is Go's `nil`).
-/

/-- Mirrors `consumer.Traces`: `ConsumeTraces(ctx, td) error`.  `Traces`
stands for the Collector-internal `ptrace.Traces`. -/
structure ConsumerTraces (Ctx Traces Err : Type) where
  consumeTraces : Ctx → Traces → Option Err

/-- Mirrors the demo's `spanExporterAdapter` struct: its only field is the
wrapped consumer `cexp`. -/
structure spanExporterAdapter (Ctx Traces Err : Type) where
  cexp : ConsumerTraces Ctx Traces Err

/-- The observable effect of one adapter method call. -/
structure CallEffect (Err : Type) where
  printed : List String
  consumeTracesCalls : Nat
  consumerShutdownCalls : Nat
  result : Option Err
deriving DecidableEq, Repr

/-- Embedding of `(*spanExporterAdapter).ExportSpans(ctx, spans)`: the body
is one `fmt.Printf` and `return nil`; the forwarding to
`e.cexp.ConsumeTraces` exists only inside a comment, so no consumer
operation is invoked. -/
def spanExporterAdapter.ExportSpans {Ctx Traces Err Span : Type}
    (e : spanExporterAdapter Ctx Traces Err) (ctx : Ctx) (spans : List Span) :
    CallEffect Err :=
  let n := spans.length
  { printed := ["Exporting " ++ toString n ++ " spans to ClickHouse"]
    consumeTracesCalls := 0
    consumerShutdownCalls := 0
    result := none }

/-- Embedding of `(*spanExporterAdapter).Shutdown(ctx)`: the body is only
`return nil` (the real shutdown is described in a comment). -/
def spanExporterAdapter.Shutdown {Ctx Traces Err : Type}
    (e : spanExporterAdapter Ctx Traces Err) (ctx : Ctx) : CallEffect Err :=
  { printed := []
    consumeTracesCalls := 0
    consumerShutdownCalls := 0
    result := none }

/-- Mirrors `clickhouseexporter.Config` (the fields the demo sets).
`ttl` models the `time.Duration` in nanoseconds. -/
structure ClickhouseConfig where
  endpoint : String
  username : String
  password : String
  database : String
  tracesTableName : String
  ttl : Nat
deriving DecidableEq, Repr

/-- Mirrors the demo's `simulatedExporter` struct. -/
structure simulatedExporter where
  config : ClickhouseConfig

/-- Embedding of `(*simulatedExporter).ExportSpans(ctx, spans)`: prints the
span count and the configured endpoint, returns `nil`, touches no
consumer. -/
def simulatedExporter.ExportSpans {Ctx Err Span : Type}
    (e : simulatedExporter) (ctx : Ctx) (spans : List Span) : CallEffect Err :=
  let n := spans.length
  { printed :=
      ["Exporting " ++ toString n ++ " spans to ClickHouse at " ++ e.config.endpoint]
    consumeTracesCalls := 0
    consumerShutdownCalls := 0
    result := none }

/-- Embedding of `(*simulatedExporter).Shutdown(ctx)`: prints a message and
returns `nil`. -/
def simulatedExporter.Shutdown {Ctx Err : Type}
    (e : simulatedExporter) (ctx : Ctx) : CallEffect Err :=
  { printed := ["Shutting down ClickHouse exporter"]
    consumeTracesCalls := 0
    consumerShutdownCalls := 0
    result := none }

end Demo

namespace Transmute

/-!
Modelled from the spec: the span translator (`transmute.Spans` /
`translate(batch SpanBatch) -> TraceRecord`, spec 4.1) is missing from the
source — `trace.go`'s `TracesExporter` is a `TODO` stub and the demo only
names the translation in comments.  The definitions below follow the
spec's words: partition the batch by Resource value equality first, then
by instrumentation-scope value equality within each Resource group, with
groups ordered by first occurrence in the input batch (stable grouping).
Span payloads (`SpanData`), resources and scopes are opaque values
compared by value equality.
-/

/-- Modelled from the spec: an SDK span as the translator sees it — its
associated Resource, its instrumentation scope, and the rest of the span
record (identifiers, name, timestamps, attributes, ...) kept opaque in
`data`. -/
structure SDKSpan (Res Scope SpanData : Type) where
  res : Res
  scope : Scope
  data : SpanData
deriving DecidableEq, Repr

/-- A ScopeSpans group: one instrumentation scope and its spans, in input
order. -/
abbrev ScopeGroup (Scope SpanData : Type) := Scope × List SpanData

/-- A Resource group: one Resource and its ScopeSpans groups. -/
abbrev ResourceGroup (Res Scope SpanData : Type) :=
  Res × List (ScopeGroup Scope SpanData)

/-- Modelled from the spec: the Collector-side `TraceRecord`, grouped
hierarchically as Resource → ScopeSpans → Span. -/
abbrev TraceRecord (Res Scope SpanData : Type) :=
  List (ResourceGroup Res Scope SpanData)

/-- Insert one span payload into the scope-group list of a resource group:
append to the group of scope `s` if one exists (value equality), else open
a new scope group at the end (first-occurrence order). -/
def insertScope {Scope SpanData : Type} [DecidableEq Scope]
    (s : Scope) (d : SpanData) :
    List (ScopeGroup Scope SpanData) → List (ScopeGroup Scope SpanData)
  | [] => [(s, [d])]
  | g :: rest =>
    if g.1 = s then (g.1, g.2 ++ [d]) :: rest else g :: insertScope s d rest

/-- Insert one span into a trace record: find its resource group by value
equality (else open a new one at the end) and insert into its scope
groups. -/
def insertSpan {Res Scope SpanData : Type} [DecidableEq Res] [DecidableEq Scope]
    (sp : SDKSpan Res Scope SpanData) :
    TraceRecord Res Scope SpanData → TraceRecord Res Scope SpanData
  | [] => [(sp.res, [(sp.scope, [sp.data])])]
  | g :: rest =>
    if g.1 = sp.res then (g.1, insertScope sp.scope sp.data g.2) :: rest
    else g :: insertSpan sp rest

/-- Left-to-right accumulation of `insertSpan` over the batch. -/
def translateAux {Res Scope SpanData : Type} [DecidableEq Res] [DecidableEq Scope]
    (acc : TraceRecord Res Scope SpanData) :
    List (SDKSpan Res Scope SpanData) → TraceRecord Res Scope SpanData
  | [] => acc
  | sp :: rest => translateAux (insertSpan sp acc) rest

/-- Modelled from the spec: `translate(batch) -> TraceRecord` — stable
grouping by Resource then scope, first-occurrence order. -/
def translate {Res Scope SpanData : Type} [DecidableEq Res] [DecidableEq Scope]
    (batch : List (SDKSpan Res Scope SpanData)) : TraceRecord Res Scope SpanData :=
  translateAux [] batch

/-- First-occurrence deduplication, accumulator form. -/
def firstOccsAux {α : Type} [DecidableEq α] (acc : List α) : List α → List α
  | [] => acc
  | x :: xs => firstOccsAux (if x ∈ acc then acc else acc ++ [x]) xs

/-- The distinct elements of a list, ordered by first occurrence. -/
def firstOccs {α : Type} [DecidableEq α] (l : List α) : List α :=
  firstOccsAux [] l

/-- Total number of span payloads in a scope-group list. -/
def scopeSpanCount {Scope SpanData : Type}
    (gs : List (ScopeGroup Scope SpanData)) : Nat :=
  (gs.map fun g => g.2.length).sum

/-- Total number of span payloads in a trace record. -/
def spanCount {Res Scope SpanData : Type}
    (tr : TraceRecord Res Scope SpanData) : Nat :=
  (tr.map fun g => scopeSpanCount g.2).sum

/-- The scope groups recorded under resource `r` (the empty list when `r`
has no group). -/
def resGroup {Res Scope SpanData : Type} [DecidableEq Res] (r : Res) :
    TraceRecord Res Scope SpanData → List (ScopeGroup Scope SpanData)
  | [] => []
  | g :: rest => if g.1 = r then g.2 else resGroup r rest

/-- The span payloads recorded under scope `s` within one resource group. -/
def scopeGroupIn {Scope SpanData : Type} [DecidableEq Scope] (s : Scope) :
    List (ScopeGroup Scope SpanData) → List SpanData
  | [] => []
  | g :: rest => if g.1 = s then g.2 else scopeGroupIn s rest

/-- Scope-level accumulation: insert a list of (scope, payload) pairs. -/
def scopeInsertAll {Scope SpanData : Type} [DecidableEq Scope]
    (acc : List (ScopeGroup Scope SpanData)) :
    List (Scope × SpanData) → List (ScopeGroup Scope SpanData)
  | [] => acc
  | p :: rest => scopeInsertAll (insertScope p.1 p.2 acc) rest

end Transmute

namespace Collex

/-- A concrete collector exporter factory over `Nat` data whose
`CreateTracesExporter` is total — it returns `.ok 0` on every input and
can never fail. -/
def natExporterFactory : ExporterFactory Nat Nat Unit Nat Nat Nat where
  createDefaultConfig := 0
  createTracesExporter := fun _ _ _ => .ok 0

/-- A probe factory whose created consumer is the very settings value it
was handed, so the settings passed to `CreateTracesExporter` are
observable in the result. -/
def probeFactory (L T Ctx Err : Type) :
    ExporterFactory L T Ctx Nat Err (ExporterCreateSettings L T) where
  createDefaultConfig := 0
  createTracesExporter := fun _ set _ => .ok set

end Collex

namespace Transmute

/-- Inserting a span payload adds scope `s` at the end of the group order
when new, and leaves the order unchanged when the scope already has a
group. -/
theorem insertScope_map_fst {Scope SpanData : Type} [DecidableEq Scope]
    (s : Scope) (d : SpanData) (gs : List (ScopeGroup Scope SpanData)) :
    (insertScope s d gs).map Prod.fst =
      if s ∈ gs.map Prod.fst then gs.map Prod.fst
      else gs.map Prod.fst ++ [s] := by
  induction gs with
  | nil => simp [insertScope]
  | cons g rest ih =>
    by_cases h : g.1 = s
    · subst h
      simp [insertScope]
    · have h2 : ¬ s = g.1 := fun hh => h hh.symm
      simp only [insertScope, if_neg h, List.map_cons, List.mem_cons, h2,
        false_or, ih]
      split <;> simp

/-- Inserting a span adds its resource at the end of the resource-group
order when new, and leaves the order unchanged otherwise. -/
theorem insertSpan_map_fst {Res Scope SpanData : Type}
    [DecidableEq Res] [DecidableEq Scope]
    (sp : SDKSpan Res Scope SpanData) (acc : TraceRecord Res Scope SpanData) :
    (insertSpan sp acc).map Prod.fst =
      if sp.res ∈ acc.map Prod.fst then acc.map Prod.fst
      else acc.map Prod.fst ++ [sp.res] := by
  induction acc with
  | nil => simp [insertSpan]
  | cons g rest ih =>
    by_cases h : g.1 = sp.res
    · simp [insertSpan, h]
    · have h2 : ¬ sp.res = g.1 := fun hh => h hh.symm
      simp only [insertSpan, if_neg h, List.map_cons, List.mem_cons, h2,
        false_or, ih]
      split <;> simp

/-- The resource-group order produced by the accumulating translator is
first-occurrence deduplication of the spans' resources. -/
theorem translateAux_map_fst {Res Scope SpanData : Type}
    [DecidableEq Res] [DecidableEq Scope]
    (l : List (SDKSpan Res Scope SpanData)) :
    ∀ acc : TraceRecord Res Scope SpanData,
      (translateAux acc l).map Prod.fst =
        firstOccsAux (acc.map Prod.fst) (l.map SDKSpan.res) := by
  induction l with
  | nil => intro acc; simp [translateAux, firstOccsAux]
  | cons sp rest ih =>
    intro acc
    simp only [translateAux, List.map_cons, firstOccsAux]
    rw [ih, insertSpan_map_fst]

/-- Resource groups appear in first-occurrence order of the input batch. -/
theorem translate_map_fst {Res Scope SpanData : Type}
    [DecidableEq Res] [DecidableEq Scope]
    (b : List (SDKSpan Res Scope SpanData)) :
    (translate b).map Prod.fst = firstOccs (b.map SDKSpan.res) := by
  simpa [translate, firstOccs] using translateAux_map_fst b []

/-- First-occurrence deduplication never repeats an element. -/
theorem firstOccsAux_nodup {α : Type} [DecidableEq α] (l : List α) :
    ∀ acc : List α, acc.Nodup → (firstOccsAux acc l).Nodup := by
  induction l with
  | nil => intro acc h; simpa [firstOccsAux] using h
  | cons x xs ih =>
    intro acc h
    simp only [firstOccsAux]
    apply ih
    by_cases hx : x ∈ acc
    · simpa [hx] using h
    · simp [hx, List.nodup_append, h]

/-- `firstOccs` is duplicate-free. -/
theorem firstOccs_nodup {α : Type} [DecidableEq α] (l : List α) :
    (firstOccs l).Nodup :=
  firstOccsAux_nodup l [] List.nodup_nil

/-- Membership in first-occurrence deduplication. -/
theorem firstOccsAux_mem {α : Type} [DecidableEq α] (y : α) (l : List α) :
    ∀ acc : List α, (y ∈ firstOccsAux acc l ↔ y ∈ acc ∨ y ∈ l) := by
  induction l with
  | nil => intro acc; simp [firstOccsAux]
  | cons x xs ih =>
    intro acc
    simp only [firstOccsAux, ih, List.mem_cons]
    by_cases hx : x ∈ acc
    · simp only [if_pos hx]
      constructor
      · intro hc; rcases hc with hc | hc
        · exact Or.inl hc
        · exact Or.inr (Or.inr hc)
      · intro hc
        rcases hc with hc | hc | hc
        · exact Or.inl hc
        · exact Or.inl (hc ▸ hx)
        · exact Or.inr hc
    · simp only [if_neg hx, List.mem_append, List.mem_singleton]
      tauto

/-- `firstOccs` keeps exactly the elements of the input. -/
theorem firstOccs_mem {α : Type} [DecidableEq α] (y : α) (l : List α) :
    y ∈ firstOccs l ↔ y ∈ l := by
  simpa [firstOccs] using firstOccsAux_mem y l []

end Transmute

namespace Transmute

/-- `insertScope` adds exactly one span payload. -/
theorem scopeSpanCount_insertScope {Scope SpanData : Type} [DecidableEq Scope]
    (s : Scope) (d : SpanData) (gs : List (ScopeGroup Scope SpanData)) :
    scopeSpanCount (insertScope s d gs) = scopeSpanCount gs + 1 := by
  induction gs with
  | nil => simp [insertScope, scopeSpanCount]
  | cons g rest ih =>
    by_cases h : g.1 = s
    · simp [insertScope, h, scopeSpanCount]
      omega
    · simp only [insertScope, if_neg h, scopeSpanCount, List.map_cons,
        List.sum_cons] at ih ⊢
      omega

/-- `insertSpan` adds exactly one span payload. -/
theorem spanCount_insertSpan {Res Scope SpanData : Type}
    [DecidableEq Res] [DecidableEq Scope]
    (sp : SDKSpan Res Scope SpanData) (acc : TraceRecord Res Scope SpanData) :
    spanCount (insertSpan sp acc) = spanCount acc + 1 := by
  induction acc with
  | nil => simp [insertSpan, spanCount, scopeSpanCount]
  | cons g rest ih =>
    by_cases h : g.1 = sp.res
    · simp [insertSpan, h, spanCount, scopeSpanCount_insertScope]
      omega
    · simp only [insertSpan, if_neg h, spanCount, List.map_cons,
        List.sum_cons] at ih ⊢
      omega

/-- The accumulating translator adds one payload per input span. -/
theorem spanCount_translateAux {Res Scope SpanData : Type}
    [DecidableEq Res] [DecidableEq Scope]
    (l : List (SDKSpan Res Scope SpanData)) :
    ∀ acc : TraceRecord Res Scope SpanData,
      spanCount (translateAux acc l) = spanCount acc + l.length := by
  induction l with
  | nil => intro acc; simp [translateAux]
  | cons sp rest ih =>
    intro acc
    simp only [translateAux, List.length_cons]
    rw [ih, spanCount_insertSpan]
    omega

/-- Translation preserves the total span count exactly. -/
theorem spanCount_translate {Res Scope SpanData : Type}
    [DecidableEq Res] [DecidableEq Scope]
    (b : List (SDKSpan Res Scope SpanData)) :
    spanCount (translate b) = b.length := by
  simpa [translate, spanCount] using spanCount_translateAux b []

/-- How `insertSpan` acts on the scope groups of one resource. -/
theorem resGroup_insertSpan {Res Scope SpanData : Type}
    [DecidableEq Res] [DecidableEq Scope] (r : Res)
    (sp : SDKSpan Res Scope SpanData) (acc : TraceRecord Res Scope SpanData) :
    resGroup r (insertSpan sp acc) =
      if sp.res = r then insertScope sp.scope sp.data (resGroup r acc)
      else resGroup r acc := by
  induction acc with
  | nil =>
    by_cases h : sp.res = r
    · simp [insertSpan, resGroup, insertScope, h]
    · simp [insertSpan, resGroup, insertScope, h]
  | cons g rest ih =>
    by_cases h1 : g.1 = sp.res
    · by_cases h2 : sp.res = r
      · simp [insertSpan, resGroup, h1, h2, h1.trans h2]
      · have h3 : ¬ g.1 = r := fun hh => h2 (h1 ▸ hh)
        simp [insertSpan, resGroup, h1, h2, h3]
    · by_cases h3 : g.1 = r
      · have h2 : ¬ sp.res = r := fun hh => h1 (h3.trans hh.symm)
        have h4 : ¬ r = sp.res := fun hh => h2 hh.symm
        simp [insertSpan, resGroup, h1, h2, h3, h4]
      · simp [insertSpan, resGroup, h1, h3, ih]

/-- The scope groups of resource `r` after translating `l` onto `acc`:
exactly the spans of `l` whose resource is `r`, inserted scope-wise in
order. -/
theorem resGroup_translateAux {Res Scope SpanData : Type}
    [DecidableEq Res] [DecidableEq Scope] (r : Res)
    (l : List (SDKSpan Res Scope SpanData)) :
    ∀ acc : TraceRecord Res Scope SpanData,
      resGroup r (translateAux acc l) =
        scopeInsertAll (resGroup r acc)
          ((l.filter fun sp => decide (sp.res = r)).map
            fun sp => (sp.scope, sp.data)) := by
  induction l with
  | nil => intro acc; simp [translateAux, scopeInsertAll]
  | cons sp rest ih =>
    intro acc
    by_cases h : sp.res = r
    · simp only [translateAux]
      rw [ih, resGroup_insertSpan, if_pos h]
      simp [List.filter_cons, h, scopeInsertAll]
    · simp only [translateAux]
      rw [ih, resGroup_insertSpan, if_neg h]
      simp [List.filter_cons, h]

/-- The scope groups of resource `r` in the translated record. -/
theorem resGroup_translate {Res Scope SpanData : Type}
    [DecidableEq Res] [DecidableEq Scope] (r : Res)
    (b : List (SDKSpan Res Scope SpanData)) :
    resGroup r (translate b) =
      scopeInsertAll []
        ((b.filter fun sp => decide (sp.res = r)).map
          fun sp => (sp.scope, sp.data)) := by
  simpa [translate, resGroup] using resGroup_translateAux r b []

end Transmute

namespace Transmute

/-- Scope-group order after scope-wise insertion of a pair list. -/
theorem scopeInsertAll_map_fst {Scope SpanData : Type} [DecidableEq Scope]
    (ps : List (Scope × SpanData)) :
    ∀ acc : List (ScopeGroup Scope SpanData),
      (scopeInsertAll acc ps).map Prod.fst =
        firstOccsAux (acc.map Prod.fst) (ps.map Prod.fst) := by
  induction ps with
  | nil => intro acc; simp [scopeInsertAll, firstOccsAux]
  | cons p rest ih =>
    intro acc
    simp only [scopeInsertAll, List.map_cons, firstOccsAux]
    rw [ih, insertScope_map_fst]

/-- How `insertScope` changes the payload list of one scope. -/
theorem scopeGroupIn_insertScope {Scope SpanData : Type} [DecidableEq Scope]
    (s s' : Scope) (d : SpanData) (gs : List (ScopeGroup Scope SpanData)) :
    scopeGroupIn s (insertScope s' d gs) =
      if s' = s then scopeGroupIn s gs ++ [d] else scopeGroupIn s gs := by
  induction gs with
  | nil =>
    by_cases h : s' = s
    · simp [insertScope, scopeGroupIn, h]
    · simp [insertScope, scopeGroupIn, h]
  | cons g rest ih =>
    by_cases h1 : g.1 = s'
    · by_cases h2 : s' = s
      · simp [insertScope, scopeGroupIn, h1, h2, h1.trans h2]
      · have h3 : ¬ g.1 = s := fun hh => h2 (h1 ▸ hh)
        simp [insertScope, scopeGroupIn, h1, h2, h3]
    · by_cases h3 : g.1 = s
      · have h2 : ¬ s' = s := fun hh => h1 (h3.trans hh.symm)
        have h4 : ¬ s = s' := fun hh => h2 hh.symm
        simp [insertScope, scopeGroupIn, h1, h2, h3, h4]
      · simp [insertScope, scopeGroupIn, h1, h3, ih]

/-- The payloads of scope `s` after scope-wise insertion: the old ones
followed by the inserted pairs whose scope is `s`, in order. -/
theorem scopeGroupIn_scopeInsertAll {Scope SpanData : Type} [DecidableEq Scope]
    (s : Scope) (ps : List (Scope × SpanData)) :
    ∀ acc : List (ScopeGroup Scope SpanData),
      scopeGroupIn s (scopeInsertAll acc ps) =
        scopeGroupIn s acc ++
          (ps.filter fun p => decide (p.1 = s)).map Prod.snd := by
  induction ps with
  | nil => intro acc; simp [scopeInsertAll]
  | cons p rest ih =>
    intro acc
    by_cases h : p.1 = s
    · simp only [scopeInsertAll]
      rw [ih, scopeGroupIn_insertScope, if_pos h]
      simp [List.filter_cons, h]
    · simp only [scopeInsertAll]
      rw [ih, scopeGroupIn_insertScope, if_neg h]
      simp [List.filter_cons, h]

/-- Filtering-then-projecting the (scope, payload) pairs of the spans with
resource `r` equals filtering the batch by resource and scope together. -/
theorem filter_pairs_eq {Res Scope SpanData : Type}
    [DecidableEq Res] [DecidableEq Scope] (r : Res) (s : Scope)
    (b : List (SDKSpan Res Scope SpanData)) :
    (((b.filter fun sp => decide (sp.res = r)).map
        fun sp => (sp.scope, sp.data)).filter
          fun p => decide (p.1 = s)).map Prod.snd =
      (b.filter fun sp => decide (sp.res = r) && decide (sp.scope = s)).map
        SDKSpan.data := by
  induction b with
  | nil => simp
  | cons sp rest ih =>
    by_cases h1 : sp.res = r
    · by_cases h2 : sp.scope = s
      · simp [List.filter_cons, h1, h2, ih]
      · simp [List.filter_cons, h1, h2, ih]
    · simp [List.filter_cons, h1, ih]

/-- Scope groups of resource `r` appear in first-occurrence order of the
scopes among the spans with that resource. -/
theorem resGroup_translate_map_fst {Res Scope SpanData : Type}
    [DecidableEq Res] [DecidableEq Scope] (r : Res)
    (b : List (SDKSpan Res Scope SpanData)) :
    (resGroup r (translate b)).map Prod.fst =
      firstOccs ((b.filter fun sp => decide (sp.res = r)).map SDKSpan.scope) := by
  rw [resGroup_translate, scopeInsertAll_map_fst, List.map_map]
  rfl

/-- The span payloads under resource `r` and scope `s` are exactly the
payloads of the batch spans with that resource and scope, in input order. -/
theorem scopeGroupIn_resGroup_translate {Res Scope SpanData : Type}
    [DecidableEq Res] [DecidableEq Scope] (r : Res) (s : Scope)
    (b : List (SDKSpan Res Scope SpanData)) :
    scopeGroupIn s (resGroup r (translate b)) =
      (b.filter fun sp => decide (sp.res = r) && decide (sp.scope = s)).map
        SDKSpan.data := by
  rw [resGroup_translate, scopeGroupIn_scopeInsertAll, filter_pairs_eq]
  simp [scopeGroupIn]

end Transmute

/-- C1 counterexample: on a concrete adapter whose wrapped consumer is
observable (it would return error 7 if invoked), exporting a 3-span batch
performs zero `ConsumeTraces` invocations — refuting the claim that
`ExportSpans` translates the batch and invokes the wrapped consumer's
ingest operation.  (It does return nil.) -/
theorem C1_counterexample :
    ((Demo.spanExporterAdapter.mk (Demo.ConsumerTraces.mk fun _ _ => some 7) :
        Demo.spanExporterAdapter Unit Unit Nat).ExportSpans ()
          [(), (), ()]).consumeTracesCalls = 0 ∧
    ((Demo.spanExporterAdapter.mk (Demo.ConsumerTraces.mk fun _ _ => some 7) :
        Demo.spanExporterAdapter Unit Unit Nat).ExportSpans ()
          [(), (), ()]).result = none :=
  ⟨rfl, rfl⟩

/-- C1 (amended): for every span batch, the demo adapter's `ExportSpans`
only prints the span count and returns success (nil); it performs no
translation and never invokes the wrapped consumer's ingest operation —
the forwarding exists only as a comment in the source. -/
theorem C1_export_logs_only {Ctx Traces Err Span : Type}
    (e : Demo.spanExporterAdapter Ctx Traces Err) (ctx : Ctx)
    (spans : List Span) :
    e.ExportSpans ctx spans =
      { printed := ["Exporting " ++ toString spans.length ++ " spans to ClickHouse"]
        consumeTracesCalls := 0
        consumerShutdownCalls := 0
        result := none } := rfl

/-- C2 counterexample: with a concrete wrapped consumer whose ingest
returns error 7 on every input, `ExportSpans` still returns nil — not a
failure carrying 7 — because it never invokes the consumer at all. -/
theorem C2_counterexample :
    ((Demo.spanExporterAdapter.mk (Demo.ConsumerTraces.mk fun _ _ => some 7) :
        Demo.spanExporterAdapter Unit Unit Nat).ExportSpans () [()]).result ≠
      some 7 ∧
    ((Demo.spanExporterAdapter.mk (Demo.ConsumerTraces.mk fun _ _ => some 7) :
        Demo.spanExporterAdapter Unit Unit Nat).ExportSpans ()
          [()]).consumeTracesCalls = 0 :=
  ⟨by decide, rfl⟩

/-- C2 (amended): the adapter's `ExportSpans` never invokes the wrapped
consumer's ingest, so no consumer error can be propagated: it returns
success for every batch regardless of what the consumer would return. -/
theorem C2_consumer_error_ignored {Ctx Traces Err Span : Type}
    (e : Demo.spanExporterAdapter Ctx Traces Err) (ctx : Ctx)
    (spans : List Span) :
    (e.ExportSpans ctx spans).result = none ∧
    (e.ExportSpans ctx spans).consumeTracesCalls = 0 :=
  ⟨rfl, rfl⟩

/-- C3 counterexample: on a concrete adapter, `Shutdown` completes
successfully (returns nil), and a subsequent `ExportSpans` call also
returns nil — success, not any "adapter closed" error. -/
theorem C3_counterexample :
    ((Demo.spanExporterAdapter.mk (Demo.ConsumerTraces.mk fun _ _ => none) :
        Demo.spanExporterAdapter Unit Unit String).Shutdown ()).result = none ∧
    ((Demo.spanExporterAdapter.mk (Demo.ConsumerTraces.mk fun _ _ => none) :
        Demo.spanExporterAdapter Unit Unit String).ExportSpans () [()]).result =
      none :=
  ⟨rfl, rfl⟩

/-- C3 (amended): the adapter keeps no closed state — after a successful
shutdown, every subsequent export call still returns success (nil) and
does not invoke the wrapped consumer's ingest operation. -/
theorem C3_no_closed_state {Ctx Traces Err Span : Type}
    (e : Demo.spanExporterAdapter Ctx Traces Err) (ctx ctx' : Ctx)
    (spans : List Span) :
    (e.Shutdown ctx).result = none ∧
    (e.ExportSpans ctx' spans).result = none ∧
    (e.ExportSpans ctx' spans).consumeTracesCalls = 0 :=
  ⟨rfl, rfl, rfl⟩

/-- C4 counterexample: with nil settings and a failing
`zap.NewProduction` (error 42), `NewFactory` fails with that logger error
even though the wrapped factory's `CreateTracesExporter` is total and can
never fail — refuting "construction fails only if CreateTracesExporter
returns an error". -/
theorem C4_counterexample :
    Collex.NewFactory (Except.error 42) 0 Collex.natExporterFactory none =
      Except.error 42 ∧
    Collex.natExporterFactory.createTracesExporter ()
      (Collex.defaultCreateSettings 0 0) 0 = Except.ok 0 :=
  ⟨rfl, rfl⟩

/-- C4 (amended): with non-nil settings, `NewFactory` always succeeds;
with nil settings it fails exactly when `zap.NewProduction` fails,
propagating that error unchanged; and `Factory.SpanExporter` fails exactly
when the underlying factory's `CreateTracesExporter` fails, propagating
that error unchanged with no exporter produced. -/
theorem C4_construction_error_modes
    {Logger TracerProvider Ctx Cfg Err Consumer : Type}
    (zp : Except Err Logger) (tp : TracerProvider)
    (fac : Collex.ExporterFactory Logger TracerProvider Ctx Cfg Err Consumer)
    (s : Collex.ExporterCreateSettings Logger TracerProvider)
    (fct : Collex.Factory Logger TracerProvider Ctx Cfg Err Consumer)
    (ctx : Ctx) (cfg : Option Cfg) (e1 e2 : Err) :
    Collex.NewFactory zp tp fac (some s) = Except.ok ⟨s, fac⟩ ∧
    (Collex.NewFactory zp tp fac none = Except.error e1 ↔
      zp = Except.error e1) ∧
    (fct.SpanExporter ctx cfg = Except.error e2 ↔
      fct.collFactory.createTracesExporter ctx fct.createCfg
        (match cfg with
         | none => fct.collFactory.createDefaultConfig
         | some c => c) = Except.error e2) := by
  refine ⟨rfl, ?_, ?_⟩
  · cases zp <;> simp [Collex.NewFactory]
  · cases cfg with
    | none =>
      cases hh : fct.collFactory.createTracesExporter ctx fct.createCfg
          fct.collFactory.createDefaultConfig <;>
        simp [Collex.Factory.SpanExporter, hh]
    | some c =>
      cases hh : fct.collFactory.createTracesExporter ctx fct.createCfg c <;>
        simp [Collex.Factory.SpanExporter, hh]

/-- C5: when `SpanExporter` is called with a nil configuration, the
configuration passed to the underlying factory's `CreateTracesExporter`
is exactly `CreateDefaultConfig` — the call's outcome is the outcome of
`createTracesExporter ctx f.createCfg f.collFactory.createDefaultConfig`. -/
theorem C5_nil_config_uses_default
    {Logger TracerProvider Ctx Cfg Err Consumer : Type}
    (f : Collex.Factory Logger TracerProvider Ctx Cfg Err Consumer)
    (ctx : Ctx) :
    f.SpanExporter ctx none =
      (f.collFactory.createTracesExporter ctx f.createCfg
        f.collFactory.createDefaultConfig).map Collex.spanExporter.mk := by
  cases hh : f.collFactory.createTracesExporter ctx f.createCfg
      f.collFactory.createDefaultConfig <;>
    simp [Collex.Factory.SpanExporter, hh, Except.map]

/-- C6: shutdown is idempotent for both demo exporters — a second
shutdown call after a successful one also returns success (nil, no
panic), and no shutdown is ever forwarded to the wrapped consumer (in
particular not twice). -/
theorem C6_shutdown_idempotent {Ctx Traces Err : Type}
    (e : Demo.spanExporterAdapter Ctx Traces Err) (se : Demo.simulatedExporter)
    (ctx1 ctx2 : Ctx) :
    (e.Shutdown ctx1).result = none ∧
    (e.Shutdown ctx2).result = none ∧
    (e.Shutdown ctx1).consumerShutdownCalls +
      (e.Shutdown ctx2).consumerShutdownCalls = 0 ∧
    (se.Shutdown ctx1 : Demo.CallEffect Err).result = none ∧
    (se.Shutdown ctx2 : Demo.CallEffect Err).result = none ∧
    (se.Shutdown ctx1 : Demo.CallEffect Err).consumerShutdownCalls +
      (se.Shutdown ctx2 : Demo.CallEffect Err).consumerShutdownCalls = 0 :=
  ⟨rfl, rfl, rfl, rfl, rfl, rfl⟩

/-- C7: the package-level `TracesExporter` of `trace.go` is an
unimplemented stub — it returns nil for every Collector traces exporter. -/
theorem C7_traces_exporter_stub {Consumer SpanExp : Type} (e : Consumer) :
    @Collex.TracesExporter Consumer SpanExp e = none := rfl

/-- C8: translation is deterministic — translating the same `SpanBatch`
twice (the same input value, in any run) yields structurally identical
`TraceRecord` output, including group order. -/
theorem C8_translate_deterministic {Res Scope SpanData : Type}
    [DecidableEq Res] [DecidableEq Scope]
    (b1 b2 : List (Transmute.SDKSpan Res Scope SpanData)) (h : b1 = b2) :
    Transmute.translate b1 = Transmute.translate b2 := by rw [h]

/-- C8 witness: the determinism theorem applied at a concrete one-span
batch. -/
theorem C8_witness :
    ([Transmute.SDKSpan.mk 1 2 3] : List (Transmute.SDKSpan Nat Nat Nat)) =
        [Transmute.SDKSpan.mk 1 2 3] ∧
    Transmute.translate
        ([Transmute.SDKSpan.mk 1 2 3] : List (Transmute.SDKSpan Nat Nat Nat)) =
      Transmute.translate [Transmute.SDKSpan.mk 1 2 3] :=
  ⟨rfl, C8_translate_deterministic _ _ rfl⟩

/-- C9: the translated `TraceRecord` has exactly one Resource group per
distinct Resource of the batch (first-occurrence order, no duplicates,
same members), preserves the total span count exactly, and partitions by
Resource value equality then instrumentation-scope value equality: the
scope groups under resource `r` list the scopes of the `r`-spans in
first-occurrence order, and the payloads under resource `r` and scope `s`
are exactly the payloads of the batch spans with that resource and scope,
in input order. -/
theorem C9_translate_grouping {Res Scope SpanData : Type}
    [DecidableEq Res] [DecidableEq Scope]
    (b : List (Transmute.SDKSpan Res Scope SpanData)) :
    (Transmute.translate b).map Prod.fst =
        Transmute.firstOccs (b.map Transmute.SDKSpan.res) ∧
    ((Transmute.translate b).map Prod.fst).Nodup ∧
    (∀ r : Res, r ∈ (Transmute.translate b).map Prod.fst ↔
        r ∈ b.map Transmute.SDKSpan.res) ∧
    Transmute.spanCount (Transmute.translate b) = b.length ∧
    (∀ r : Res, (Transmute.resGroup r (Transmute.translate b)).map Prod.fst =
        Transmute.firstOccs
          ((b.filter fun sp => decide (sp.res = r)).map
            Transmute.SDKSpan.scope)) ∧
    (∀ (r : Res) (s : Scope),
        Transmute.scopeGroupIn s
            (Transmute.resGroup r (Transmute.translate b)) =
          (b.filter fun sp =>
              decide (sp.res = r) && decide (sp.scope = s)).map
            Transmute.SDKSpan.data) := by
  refine ⟨Transmute.translate_map_fst b, ?_, ?_,
    Transmute.spanCount_translate b, ?_, ?_⟩
  · rw [Transmute.translate_map_fst]
    exact Transmute.firstOccs_nodup _
  · intro r
    rw [Transmute.translate_map_fst]
    exact Transmute.firstOccs_mem r _
  · intro r
    exact Transmute.resGroup_translate_map_fst r b
  · intro r s
    exact Transmute.scopeGroupIn_resGroup_translate r s b

/-- C10: `NewFactory` on a non-nil settings pointer returns a factory and
a nil error, and the factory stores a copy of the dereferenced settings:
the factory built from heap `h` at address `a` holds `h a`; writing `v`
through the pointer afterwards changes the heap cell but not the settings
the factory passes to `CreateTracesExporter` (observed via a probe
factory whose created consumer is the settings it received); a factory
built after the write would hold `v` instead. -/
theorem C10_settings_copied_at_construction {L T Ctx Cfg Err Consumer : Type}
    (zp : Except Err L) (tp : T)
    (fac : Collex.ExporterFactory L T Ctx Cfg Err Consumer)
    (h : Collex.Heap L T) (a : Nat)
    (v : Collex.ExporterCreateSettings L T) (ctx : Ctx) :
    Collex.NewFactoryRef zp tp fac h (some a) = Except.ok ⟨h a, fac⟩ ∧
    Collex.Heap.write h a v a = v ∧
    Collex.Factory.SpanExporter
        ⟨h a, Collex.probeFactory L T Ctx Err⟩ ctx none = Except.ok ⟨h a⟩ ∧
    Collex.NewFactoryRef zp tp (Collex.probeFactory L T Ctx Err)
        (Collex.Heap.write h a v) (some a) =
      Except.ok ⟨v, Collex.probeFactory L T Ctx Err⟩ := by
  refine ⟨rfl, ?_, rfl, ?_⟩
  · simp [Collex.Heap.write]
  · simp [Collex.NewFactoryRef, Collex.NewFactory, Collex.Heap.write]

/-- Sanity check (spec section 8's example scenario): a batch of 3 spans —
two under resource 0 / scope 10, one under resource 1 / scope 11 —
translates to two resource groups in first-occurrence order, the first
with one scope group of two spans and the second with one scope group of
one span. -/
theorem translate_example_scenario :
    Transmute.translate
        [Transmute.SDKSpan.mk 0 10 1, Transmute.SDKSpan.mk 0 10 2,
         Transmute.SDKSpan.mk 1 11 3] =
      [(0, [(10, [1, 2])]), (1, [(11, [3])])] := by decide
